import Mathlib

/-!
Shallow embedding of `src/__init__.py` (autoindexmaker): an Azure Functions
HTTP handler that provisions a search index, one blob data source per
configured container, and one indexer per container, against an external
search service.

Modelling conventions:
* Environment configuration (the module-level `os.getenv` reads) becomes the
  `Config` structure.
* The storage account's actual container list (returned by
  `blob_service.list_containers()`) is a parameter `available`.
* The external search service is a responder `http : Request → HttpResp`
  supplying the HTTP response to each issued request.
* Python exceptions become `Except String` values carrying `str(e)`.
* JSON request/response payloads are modelled by an inductive `Json` value
  (Python dict literals in source order); `json.dumps` serialisation is not
  modelled, the `Json` value itself is the body.
-/

/-- JSON values, enough for the payloads the program builds. Object fields
are kept in the source's literal order. -/
inductive Json where
  | str : String → Json
  | num : Int → Json
  | bool : Bool → Json
  | arr : List Json → Json
  | obj : List (String × Json) → Json

/-- Field lookup in a JSON object (first match), `none` on non-objects. -/
def Json.getField : Json → String → Option Json
  | Json.obj fields, k => fields.lookup k
  | _, _ => none

/-- The environment configuration read at module import time:
`AZURE_SEARCH_ENDPOINT`, `AZURE_SEARCH_ADMIN_KEY`,
`AZURE_STORAGE_CONNECTION_STRING`, `BLOB_CONTAINERS` (defaulting to `""`
when unset, per `os.getenv("BLOB_CONTAINERS", "")`). -/
structure Config where
  searchEndpoint : String
  searchApiKey : String
  storageConnString : String
  blobContainers : String

/-- Python `BLOB_CONTAINERS.split(",")`: split on every comma, keeping empty
segments; the empty string yields `[""]`. -/
def splitOnCommaList : List Char → List (List Char)
  | [] => [[]]
  | c :: rest =>
      let r := splitOnCommaList rest
      if c = ',' then [] :: r
      else
        match r with
        | [] => [[c]]
        | h :: t => (c :: h) :: t

/-- String-level wrapper for `str.split(",")`. -/
def splitOnComma (s : String) : List String :=
  (splitOnCommaList s.toList).map (fun l => String.mk l)

/-- Python `str.strip()`: drop leading and trailing whitespace. -/
def pyStrip (s : String) : String :=
  String.mk (((s.toList.dropWhile Char.isWhitespace).reverse.dropWhile
    Char.isWhitespace).reverse)

/-- Outcome of `get_target_containers`: the returned list or the raised
`ValueError` message, plus how many storage-service network calls
(`list_containers` enumerations) were made before returning or raising. -/
structure ResolverOutcome where
  result : Except String (List String)
  networkCalls : Nat

/-- Lines 21 and 25 of `get_target_containers`:
`target = [c.strip() for c in BLOB_CONTAINERS.split(",")]` followed by
`valid = [c for c in target if c in available]`. -/
def resolvedList (blobContainers : String) (available : List String) :
    List String :=
  ((splitOnComma blobContainers).map pyStrip).filter
    (fun c => available.contains c)

/-- `get_target_containers` from `src/__init__.py` lines 18-29.
`available` stands for the names returned by `list_containers()`; fetching
it is the single network call, made only after the emptiness check. -/
def get_target_containers (blobContainers : String) (available : List String) :
    ResolverOutcome :=
  if blobContainers = "" then
    { result := Except.error "BLOB_CONTAINERS env var is not set."
      networkCalls := 0 }
  else
    let valid := resolvedList blobContainers available
    if valid.isEmpty then
      { result := Except.error "No valid containers found to index."
        networkCalls := 1 }
    else
      { result := Except.ok valid, networkCalls := 1 }

/-- HTTP method of an outgoing request (`requests.post` / `requests.put`). -/
inductive Method where
  | post : Method
  | put : Method
deriving DecidableEq

/-- An outgoing HTTP request to the search service: method, full URL,
headers (the module-level `HEADERS` dict) and JSON payload. -/
structure Request where
  method : Method
  url : String
  headers : List (String × String)
  payload : Json

/-- An HTTP response from the search service, as the program reads it
(`response.status_code`, `response.text`). -/
structure HttpResp where
  statusCode : Nat
  text : String

/-- The module-level `HEADERS` dict (line 13). -/
def HEADERS (cfg : Config) : List (String × String) :=
  [("Content-Type", "application/json"), ("api-key", cfg.searchApiKey)]

/-- The fixed index schema payload of `create_search_index` (lines 34-43). -/
def financialIndexPayload : Json :=
  Json.obj [
    ("name", Json.str "financial-index"),
    ("fields", Json.arr [
      Json.obj [("name", Json.str "id"), ("type", Json.str "Edm.String"),
        ("key", Json.bool true), ("searchable", Json.bool false)],
      Json.obj [("name", Json.str "content"), ("type", Json.str "Edm.String"),
        ("searchable", Json.bool true)],
      Json.obj [("name", Json.str "metadata_storage_name"),
        ("type", Json.str "Edm.String"), ("filterable", Json.bool true),
        ("sortable", Json.bool true)],
      Json.obj [("name", Json.str "metadata_storage_path"),
        ("type", Json.str "Edm.String"), ("filterable", Json.bool true)],
      Json.obj [("name", Json.str "metadata_storage_last_modified"),
        ("type", Json.str "Edm.DateTimeOffset"), ("sortable", Json.bool true)]
    ])
  ]

/-- The request issued by `create_search_index` (lines 31-44):
`requests.post` to the `/indexes` collection URL. -/
def create_search_index_request (cfg : Config) : Request :=
  { method := Method.post
    url := cfg.searchEndpoint ++ "/indexes?api-version=2024-07-01"
    headers := HEADERS cfg
    payload := financialIndexPayload }

/-- The request issued by `create_data_source` (lines 47-56):
`requests.put` to `/datasources/{container_name}-ds`. -/
def create_data_source_request (cfg : Config) (container_name : String) :
    Request :=
  { method := Method.put
    url := cfg.searchEndpoint ++ "/datasources/" ++ container_name
      ++ "-ds?api-version=2024-07-01"
    headers := HEADERS cfg
    payload := Json.obj [
      ("name", Json.str (container_name ++ "-ds")),
      ("type", Json.str "azureblob"),
      ("credentials", Json.obj [
        ("connectionString", Json.str cfg.storageConnString)]),
      ("container", Json.obj [("name", Json.str container_name)])
    ] }

/-- The request issued by `create_indexer` (lines 59-78):
`requests.put` to `/indexers/{container_name}-idx`. -/
def create_indexer_request (cfg : Config) (container_name : String) :
    Request :=
  { method := Method.put
    url := cfg.searchEndpoint ++ "/indexers/" ++ container_name
      ++ "-idx?api-version=2024-07-01"
    headers := HEADERS cfg
    payload := Json.obj [
      ("name", Json.str (container_name ++ "-idx")),
      ("dataSourceName", Json.str (container_name ++ "-ds")),
      ("targetIndexName", Json.str "financial-index"),
      ("parameters", Json.obj [
        ("maxFailedItems", Json.num (-1)),
        ("maxFailedItemsPerBatch", Json.num (-1)),
        ("configuration", Json.obj [
          ("failOnUnsupportedContentType", Json.bool false),
          ("failOnUnprocessableDocument", Json.bool false),
          ("indexedFileNameExtensions", Json.str ".pdf,.docx,.xlsx,.md,.txt"),
          ("excludedFileNameExtensions", Json.str ".png,.jpeg"),
          ("dataToExtract", Json.str "contentAndMetadata")
        ])
      ])
    ] }

/-- The response handling shared by all three write steps
(lines 44-45, 56-57, 78-79): the status and body are logged and nothing is
raised, whatever the status. Returns the log line and the (never-error)
exception outcome of the step's response handling. -/
def handle_response (label : String) (resp : HttpResp) :
    String × Except String Unit :=
  (label ++ ": " ++ toString resp.statusCode ++ " - " ++ resp.text,
    Except.ok ())

/-- What one write step did: the request it issued, the log lines it
printed, and whether it raised. -/
structure StepOut where
  request : Request
  logs : List String
  raised : Except String Unit

/-- `create_search_index` (lines 31-45) as a step: issues its request to the
responder `http`, logs the response. -/
def create_search_index (cfg : Config) (http : Request → HttpResp) :
    StepOut :=
  let req := create_search_index_request cfg
  let h := handle_response "Index creation response" (http req)
  { request := req
    logs := ["Creating or validating search index: financial-index", h.1]
    raised := h.2 }

/-- `create_data_source` (lines 47-57) as a step. -/
def create_data_source (cfg : Config) (http : Request → HttpResp)
    (container_name : String) : StepOut :=
  let req := create_data_source_request cfg container_name
  let h := handle_response "Datasource response" (http req)
  { request := req
    logs := ["Creating datasource for container: " ++ container_name, h.1]
    raised := h.2 }

/-- `create_indexer` (lines 59-79) as a step. -/
def create_indexer (cfg : Config) (http : Request → HttpResp)
    (container_name : String) : StepOut :=
  let req := create_indexer_request cfg container_name
  let h := handle_response "Indexer response" (http req)
  { request := req
    logs := ["Creating indexer for container: " ++ container_name, h.1]
    raised := h.2 }

/-- What a whole run did: every request issued (in order), the log lines,
and the returned value or raised exception message. -/
structure RunOutcome where
  requests : List Request
  logs : List String
  result : Except String Json

/-- The `for c in containers:` loop body of `run_indexing` (lines 85-87):
data source then indexer for each container, aborting if a step raises. -/
def runContainerSteps (cfg : Config) (http : Request → HttpResp) :
    List String → List Request × List String × Except String Unit
  | [] => ([], [], Except.ok ())
  | c :: rest =>
      let ds := create_data_source cfg http c
      match ds.raised with
      | Except.error e => ([ds.request], ds.logs, Except.error e)
      | Except.ok _ =>
          let ix := create_indexer cfg http c
          match ix.raised with
          | Except.error e =>
              ([ds.request, ix.request], ds.logs ++ ix.logs, Except.error e)
          | Except.ok _ =>
              let r := runContainerSteps cfg http rest
              (ds.request :: ix.request :: r.1, ds.logs ++ ix.logs ++ r.2.1,
                r.2.2)

/-- The success value `{"status": "success", "containers": containers}`
returned by `run_indexing` (line 89). -/
def successJson (containers : List String) : Json :=
  Json.obj [("status", Json.str "success"),
    ("containers", Json.arr (containers.map Json.str))]

/-- `run_indexing` (lines 81-89): create the index schema, resolve the
target containers (which may raise), then register a data source and an
indexer per container; return the success descriptor. -/
def run_indexing (cfg : Config) (available : List String)
    (http : Request → HttpResp) : RunOutcome :=
  let s1 := create_search_index cfg http
  match s1.raised with
  | Except.error e =>
      { requests := [s1.request]
        logs := "Starting indexing workflow" :: s1.logs
        result := Except.error e }
  | Except.ok _ =>
      let r := get_target_containers cfg.blobContainers available
      match r.result with
      | Except.error e =>
          { requests := [s1.request]
            logs := "Starting indexing workflow" :: s1.logs
            result := Except.error e }
      | Except.ok containers =>
          let loop := runContainerSteps cfg http containers
          match loop.2.2 with
          | Except.error e =>
              { requests := s1.request :: loop.1
                logs := ("Starting indexing workflow" :: s1.logs) ++ loop.2.1
                result := Except.error e }
          | Except.ok _ =>
              { requests := s1.request :: loop.1
                logs := ("Starting indexing workflow" :: s1.logs) ++ loop.2.1
                  ++ ["Indexing complete."]
                result := Except.ok (successJson containers) }

/-- An outgoing HTTP response of the Azure Functions handler:
`func.HttpResponse(body, status_code, mimetype)`, with the body kept as the
`Json` value passed to `json.dumps`. -/
structure HttpResponse where
  body : Json
  statusCode : Nat
  mimetype : String

/-- `manual_index` (lines 91-98): run the workflow; on normal return answer
200 with the result, on any exception answer 500 with
`{"status": "error", "message": str(e)}`; both `application/json`. -/
def manual_index (cfg : Config) (available : List String)
    (http : Request → HttpResp) : HttpResponse :=
  match (run_indexing cfg available http).result with
  | Except.ok j =>
      { body := j, statusCode := 200, mimetype := "application/json" }
  | Except.error e =>
      { body := Json.obj [("status", Json.str "error"),
          ("message", Json.str e)]
        statusCode := 500
        mimetype := "application/json" }

/-- A Boolean error test on `Except` outcomes. -/
def isErr {ε α : Type} : Except ε α → Bool
  | Except.error _ => true
  | Except.ok _ => false

/-- Whether `seg` occurs contiguously inside the character list. -/
def hasInfix (seg : List Char) : List Char → Bool
  | [] => seg.isEmpty
  | c :: rest => seg.isPrefixOf (c :: rest) || hasInfix seg rest

/-- Whether `seg` occurs as a substring of `url`. -/
def containsSeg (url seg : String) : Bool :=
  hasInfix seg.toList url.toList

/-- An idempotent create-or-update upsert request as the spec describes it:
a `PUT` addressed to the very resource named in its payload, so that
repeating it updates rather than re-creates that resource (the resource
name appears as a path segment of the URL, before the query string). -/
def isNamedUpsertReq (r : Request) : Bool :=
  (r.method == Method.put) &&
    (match r.payload.getField "name" with
     | some (Json.str n) => containsSeg r.url ("/" ++ n ++ "?")
     | _ => false)

/-- A concrete configuration used for witnesses and counterexamples. -/
def sampleCfg (bc : String) : Config :=
  { searchEndpoint := "https://example.search.windows.net"
    searchApiKey := "admin-key"
    storageConnString := "conn-string"
    blobContainers := bc }

/-- A concrete responder used for witnesses and counterexamples. -/
def okResponder : Request → HttpResp :=
  fun _ => { statusCode := 201, text := "created" }

/-- A responder that answers every request with a non-2xx error status. -/
def errResponder : Request → HttpResp :=
  fun _ => { statusCode := 503, text := "Service Unavailable" }

section Helpers

/-- The loop issues exactly a data-source request then an indexer request
per container, in order, and never raises. -/
lemma runContainerSteps_spec (cfg : Config) (http : Request → HttpResp)
    (l : List String) :
    (runContainerSteps cfg http l).1 = (l.map (fun c =>
        [create_data_source_request cfg c, create_indexer_request cfg c])).flatten
    ∧ (runContainerSteps cfg http l).2.2 = Except.ok () := by
  induction l with
  | nil => simp [runContainerSteps]
  | cons c rest ih =>
      simp [runContainerSteps, create_data_source, create_indexer,
        handle_response, ih.1, ih.2]

/-- On a successful resolution, the run's request trace is the index
request followed by the per-container pairs, and the result is the success
descriptor. -/
lemma run_indexing_ok (cfg : Config) (available : List String)
    (http : Request → HttpResp) (containers : List String)
    (h : (get_target_containers cfg.blobContainers available).result
      = Except.ok containers) :
    (run_indexing cfg available http).requests
      = create_search_index_request cfg :: (containers.map (fun c =>
          [create_data_source_request cfg c,
            create_indexer_request cfg c])).flatten
    ∧ (run_indexing cfg available http).result
      = Except.ok (successJson containers) := by
  have hs := runContainerSteps_spec cfg http containers
  simp only [run_indexing, create_search_index, handle_response, h, hs.1,
    hs.2]
  constructor <;> first | rfl | trivial

/-- On a failed resolution, the run aborts with that error after issuing
only the index request. -/
lemma run_indexing_err (cfg : Config) (available : List String)
    (http : Request → HttpResp) (e : String)
    (h : (get_target_containers cfg.blobContainers available).result
      = Except.error e) :
    (run_indexing cfg available http).requests
      = [create_search_index_request cfg]
    ∧ (run_indexing cfg available http).result = Except.error e := by
  simp only [run_indexing, create_search_index, handle_response, h]
  constructor <;> first | rfl | trivial

/-- Joining two-element blocks doubles the length. -/
lemma join_pairs_length (f g : String → Request) (l : List String) :
    ((l.map (fun c => [f c, g c])).flatten).length = 2 * l.length := by
  induction l with
  | nil => simp
  | cons c rest ih =>
      simp [ih]
      ring

/-- `contains` agrees with membership for strings. -/
lemma contains_iff_mem (l : List String) (c : String) :
    l.contains c = true ↔ c ∈ l := by
  simp [List.contains]

/-- Occurrence count in a filtered list. -/
lemma count_of_filter (p : String → Bool) (l : List String) (a : String) :
    (l.filter p).count a = if p a then l.count a else 0 := by
  induction l with
  | nil => simp
  | cons b rest ih =>
      by_cases hb : p b
      · by_cases hab : a = b <;> simp [hb, hab, List.count_cons, ih]
      · by_cases hab : a = b
        · subst hab; simp [hb, ih]
        · simp [hb, List.count_cons, hab, ih]

/-- `resolvedList` unfolded. -/
lemma resolvedList_eq (bc : String) (available : List String) :
    resolvedList bc available
      = ((splitOnComma bc).map pyStrip).filter
          (fun c => available.contains c) := rfl

/-- Characterisation of a successful resolution: the configured string is
non-empty and the result is the non-empty stripped-and-filtered list. -/
lemma resolver_ok_iff (cfg : String) (available : List String)
    (res : List String) :
    (get_target_containers cfg available).result = Except.ok res ↔
      (cfg ≠ "" ∧ res = resolvedList cfg available ∧ res ≠ []) := by
  unfold get_target_containers
  by_cases hc : cfg = ""
  · simp [hc]
  · rw [if_neg hc]
    by_cases hv : (resolvedList cfg available).isEmpty
    · rw [List.isEmpty_iff] at hv
      simp only [hv, List.isEmpty_nil, if_true, ite_true, reduceIte]
      simp [hc, hv]
    · have hv2 : resolvedList cfg available ≠ [] := by
        intro h
        rw [h] at hv
        exact hv List.isEmpty_nil
      rw [if_neg hv]
      simp [hc]
      constructor
      · intro h
        exact ⟨h.symm, fun he => hv2 (h.trans he)⟩
      · intro h
        exact h.1.symm

/-- Characterisation of a failed resolution. -/
lemma resolver_err_iff (cfg : String) (available : List String) :
    isErr (get_target_containers cfg available).result = true ↔
      (cfg = "" ∨ resolvedList cfg available = []) := by
  unfold get_target_containers
  by_cases hc : cfg = ""
  · simp [hc, isErr]
  · rw [if_neg hc]
    by_cases hv : (resolvedList cfg available).isEmpty
    · rw [List.isEmpty_iff] at hv
      simp only [hv, List.isEmpty_nil, if_true, ite_true, reduceIte]
      simp [hc, hv, isErr]
    · have hv2 : resolvedList cfg available ≠ [] := by
        intro h
        rw [h] at hv
        exact hv List.isEmpty_nil
      rw [if_neg hv]
      simp [hc, hv2, isErr]

end Helpers

/-- C1: for every configured allow-list and available container list, the
resolver returns the ordered intersection of the configured (split,
stripped) names with the available names, preserving configured order; in
particular allow-list `"a,b,c"` with actual containers
`["b", "c", "d"]` yields `["b", "c"]` in that order. -/
theorem C1_resolver_ordered_intersection :
    (∀ cfg available res,
      (get_target_containers cfg available).result = Except.ok res →
        res = ((splitOnComma cfg).map pyStrip).filter
          (fun c => available.contains c)
        ∧ List.Sublist res ((splitOnComma cfg).map pyStrip)
        ∧ (∀ c, c ∈ res ↔
            c ∈ (splitOnComma cfg).map pyStrip ∧ c ∈ available))
    ∧ (get_target_containers "a,b,c" ["b", "c", "d"]).result
        = Except.ok ["b", "c"] := by
  constructor
  · intro cfg available res h
    have h2 := (resolver_ok_iff cfg available res).mp h
    have he : res = ((splitOnComma cfg).map pyStrip).filter
        (fun c => available.contains c) := by
      rw [h2.2.1, resolvedList_eq]
    refine ⟨he, ?_, ?_⟩
    · rw [he]
      exact List.filter_sublist _
    · intro c
      rw [he]
      simp [List.mem_filter, contains_iff_mem]
  · rfl

/-- Witness for C1 at the spec's own example. -/
theorem C1_resolver_ordered_intersection_witness :
    (["b", "c"] : List String)
      = ((splitOnComma "a,b,c").map pyStrip).filter
          (fun c => (["b", "c", "d"] : List String).contains c) :=
  (C1_resolver_ordered_intersection.1 "a,b,c" ["b", "c", "d"]
    ["b", "c"] (by rfl)).1

/-- C2: the resolver raises exactly when the configured allow-list is
absent/empty or the intersection with the available containers is empty;
with an absent/empty allow-list it raises before the storage enumeration
network call. -/
theorem C2_resolver_error_iff :
    ∀ cfg available,
      (isErr (get_target_containers cfg available).result = true ↔
        (cfg = "" ∨ ((splitOnComma cfg).map pyStrip).filter
          (fun c => available.contains c) = []))
      ∧ (cfg = "" →
          (get_target_containers cfg available).networkCalls = 0) := by
  intro cfg available
  constructor
  · rw [resolver_err_iff, resolvedList_eq]
  · intro hc
    simp [get_target_containers, hc]

/-- Witness for C2: the empty allow-list raises with no network call, and
allow-list `"x"` against actual containers `["y"]` raises. -/
theorem C2_resolver_error_iff_witness :
    (get_target_containers "" ["a"]).networkCalls = 0
    ∧ isErr (get_target_containers "x" ["y"]).result = true :=
  ⟨(C2_resolver_error_iff "" ["a"]).2 rfl,
    (C2_resolver_error_iff "x" ["y"]).1.mpr (Or.inr (by rfl))⟩

/-- C3: a run performs schema creation, then resolution, then per resolved
container a data-source request followed by an indexer request: with N
resolved containers the trace is the one index request followed by the N
request pairs (so 1 + 2N requests), and the run returns the success
descriptor with the resolved list; concretely, allow-list
`"invoices,receipts"` with both containers available gives
`{"status": "success", "containers": ["invoices", "receipts"]}` and
1 + 2 + 2 = 5 requests. -/
theorem C3_orchestrator_sequence_and_counts :
    (∀ cfg available http containers,
      (get_target_containers cfg.blobContainers available).result
        = Except.ok containers →
        (run_indexing cfg available http).requests
          = create_search_index_request cfg :: (containers.map (fun c =>
              [create_data_source_request cfg c,
                create_indexer_request cfg c])).flatten
        ∧ (run_indexing cfg available http).requests.length
            = 1 + 2 * containers.length
        ∧ (run_indexing cfg available http).result
            = Except.ok (successJson containers))
    ∧ (run_indexing (sampleCfg "invoices,receipts")
          ["invoices", "receipts", "archive"] okResponder).result
        = Except.ok (successJson ["invoices", "receipts"])
    ∧ (run_indexing (sampleCfg "invoices,receipts")
          ["invoices", "receipts", "archive"] okResponder).requests.length
        = 5 := by
  refine ⟨?_, by rfl, by rfl⟩
  intro cfg available http containers h
  have hk := run_indexing_ok cfg available http containers h
  refine ⟨hk.1, ?_, hk.2⟩
  rw [hk.1]
  simp only [List.length_cons, join_pairs_length]
  omega

/-- Witness for C3 at the spec's end-to-end example. -/
theorem C3_orchestrator_sequence_and_counts_witness :
    (run_indexing (sampleCfg "invoices,receipts")
        ["invoices", "receipts", "archive"] okResponder).result
      = Except.ok (successJson ["invoices", "receipts"]) :=
  (C3_orchestrator_sequence_and_counts.1 (sampleCfg "invoices,receipts")
    ["invoices", "receipts", "archive"] okResponder
    ["invoices", "receipts"] (by rfl)).2.2

/-- C4: the handler maps a normal orchestrator return to HTTP 200 with the
success JSON, and any raised exception to HTTP 500 with
`{"status": "error", "message": <text>}`; both responses carry mimetype
`application/json`. -/
theorem C4_handler_status_mapping :
    ∀ cfg available http,
      (∀ j, (run_indexing cfg available http).result = Except.ok j →
        manual_index cfg available http
          = { body := j, statusCode := 200
              mimetype := "application/json" })
      ∧ (∀ containers,
          (get_target_containers cfg.blobContainers available).result
            = Except.ok containers →
          manual_index cfg available http
            = { body := successJson containers, statusCode := 200
                mimetype := "application/json" })
      ∧ (∀ e, (run_indexing cfg available http).result = Except.error e →
          manual_index cfg available http
            = { body := Json.obj [("status", Json.str "error"),
                  ("message", Json.str e)]
                statusCode := 500
                mimetype := "application/json" })
      ∧ (manual_index cfg available http).mimetype
          = "application/json" := by
  intro cfg available http
  refine ⟨?_, ?_, ?_, ?_⟩
  · intro j h
    simp [manual_index, h]
  · intro containers h
    have hk := run_indexing_ok cfg available http containers h
    simp [manual_index, hk.2]
  · intro e h
    simp [manual_index, h]
  · rcases hres : (run_indexing cfg available http).result with e | j <;>
      simp [manual_index, hres]

/-- Witness for C4: a success run answers 200 and an aborted run answers
500 with the exception message. -/
theorem C4_handler_status_mapping_witness :
    manual_index (sampleCfg "a") ["a"] okResponder
      = { body := successJson ["a"], statusCode := 200
          mimetype := "application/json" }
    ∧ manual_index (sampleCfg "") ["a"] okResponder
      = { body := Json.obj [("status", Json.str "error"),
            ("message", Json.str "BLOB_CONTAINERS env var is not set.")]
          statusCode := 500
          mimetype := "application/json" } :=
  ⟨(C4_handler_status_mapping (sampleCfg "a") ["a"] okResponder).2.1
      ["a"] (by rfl),
    (C4_handler_status_mapping (sampleCfg "") ["a"] okResponder).2.2.1
      "BLOB_CONTAINERS env var is not set." (by rfl)⟩

/-- C5: for any container name `c` the data-source request is addressed to
`c ++ "-ds"` (path and payload name), the indexer request to
`c ++ "-idx"`, and the indexer payload binds `dataSourceName` to
`c ++ "-ds"` and `targetIndexName` to the shared index name
`financial-index` declared by the schema payload. -/
theorem C5_registrar_naming :
    ∀ cfg c,
      (create_data_source_request cfg c).url
        = cfg.searchEndpoint ++ "/datasources/" ++ (c ++ "-ds")
          ++ "?api-version=2024-07-01"
      ∧ (create_data_source_request cfg c).payload.getField "name"
          = some (Json.str (c ++ "-ds"))
      ∧ (create_indexer_request cfg c).url
          = cfg.searchEndpoint ++ "/indexers/" ++ (c ++ "-idx")
            ++ "?api-version=2024-07-01"
      ∧ (create_indexer_request cfg c).payload.getField "name"
          = some (Json.str (c ++ "-idx"))
      ∧ (create_indexer_request cfg c).payload.getField "dataSourceName"
          = some (Json.str (c ++ "-ds"))
      ∧ (create_indexer_request cfg c).payload.getField "targetIndexName"
          = some (Json.str "financial-index")
      ∧ financialIndexPayload.getField "name"
          = some (Json.str "financial-index") := by
  intro cfg c
  refine ⟨?_, by rfl, ?_, by rfl, by rfl, by rfl, by rfl⟩
  · simp only [create_data_source_request, String.append_assoc]
    rfl
  · simp only [create_indexer_request, String.append_assoc]
    rfl

/-- C6: none of the three write steps raises on an HTTP response: whatever
status and body the service answers, the step's response handling logs the
status and body and yields no exception, and the run proceeds through all
remaining steps (full trace of 1 + 2N requests). -/
theorem C6_write_steps_never_raise :
    ∀ cfg http c label resp available containers,
      (handle_response label resp).2 = Except.ok ()
      ∧ (handle_response label resp).1
          = label ++ ": " ++ toString resp.statusCode ++ " - " ++ resp.text
      ∧ (create_search_index cfg http).raised = Except.ok ()
      ∧ (create_data_source cfg http c).raised = Except.ok ()
      ∧ (create_indexer cfg http c).raised = Except.ok ()
      ∧ ((get_target_containers cfg.blobContainers available).result
            = Except.ok containers →
          (run_indexing cfg available http).requests.length
            = 1 + 2 * containers.length) := by
  intro cfg http c label resp available containers
  refine ⟨rfl, rfl, rfl, rfl, rfl, ?_⟩
  intro h
  have hk := run_indexing_ok cfg available http containers h
  rw [hk.1]
  simp only [List.length_cons, join_pairs_length]
  omega

/-- Witness for C6: with a responder answering 503 to everything, a run
over one container still issues all three requests. -/
theorem C6_write_steps_never_raise_witness :
    (run_indexing (sampleCfg "a") ["a"] errResponder).requests.length
      = 3 :=
  (C6_write_steps_never_raise (sampleCfg "a") errResponder "a" "x"
    { statusCode := 503, text := "Service Unavailable" }
    ["a"] ["a"]).2.2.2.2.2 (by rfl)

/-- C7 as stated is false: the index schema write is not an idempotent
create-or-update upsert. On a concrete run, not every issued request is a
`PUT` addressed to the resource named in its payload: the index request is
a `POST` to the `/indexes` collection URL. -/
theorem C7_counterexample_index_write_not_upsert :
    ¬ (∀ r ∈ (run_indexing (sampleCfg "a") ["a"] okResponder).requests,
        isNamedUpsertReq r = true) := by
  decide

/-- C7 amended: the data-source and indexer writes are idempotent upserts,
`PUT` requests addressed to the resource named in their payload; the index
schema write is instead a `POST` to the `/indexes` collection URL, naming
the index only in the payload. -/
theorem C7_amended_upsert_addressing :
    (∀ cfg c,
      (create_data_source_request cfg c).method = Method.put
      ∧ (create_indexer_request cfg c).method = Method.put
      ∧ (create_data_source_request cfg c).url
          = cfg.searchEndpoint ++ "/datasources/" ++ (c ++ "-ds")
            ++ "?api-version=2024-07-01"
      ∧ (create_indexer_request cfg c).url
          = cfg.searchEndpoint ++ "/indexers/" ++ (c ++ "-idx")
            ++ "?api-version=2024-07-01"
      ∧ (create_search_index_request cfg).method = Method.post
      ∧ (create_search_index_request cfg).url
          = cfg.searchEndpoint ++ "/indexes?api-version=2024-07-01")
    ∧ isNamedUpsertReq (create_data_source_request (sampleCfg "a") "a")
        = true
    ∧ isNamedUpsertReq (create_indexer_request (sampleCfg "a") "a")
        = true
    ∧ isNamedUpsertReq (create_search_index_request (sampleCfg "a"))
        = false := by
  refine ⟨?_, by decide, by decide, by decide⟩
  intro cfg c
  refine ⟨rfl, rfl, ?_, ?_, rfl, rfl⟩
  · simp only [create_data_source_request, String.append_assoc]
    rfl
  · simp only [create_indexer_request, String.append_assoc]
    rfl

/-- C8: two runs with the same configuration and the same available
containers issue the same request trace (method, URL, headers and payload)
and return the same result, whatever the service answered either time: no
request depends on prior run state. -/
theorem C8_rerun_identical_requests :
    ∀ cfg available http1 http2,
      (run_indexing cfg available http1).requests
        = (run_indexing cfg available http2).requests
      ∧ (run_indexing cfg available http1).result
        = (run_indexing cfg available http2).result := by
  intro cfg available http1 http2
  rcases hres : (get_target_containers cfg.blobContainers available).result
    with e | containers
  · have h1 := run_indexing_err cfg available http1 e hres
    have h2 := run_indexing_err cfg available http2 e hres
    exact ⟨h1.1.trans h2.1.symm, h1.2.trans h2.2.symm⟩
  · have h1 := run_indexing_ok cfg available http1 containers hres
    have h2 := run_indexing_ok cfg available http2 containers hres
    exact ⟨h1.1.trans h2.1.symm, h1.2.trans h2.2.symm⟩

/-- C9: every run that aborts with a configuration error has already
issued exactly the one index-creation request and no data-source or
indexer request. -/
theorem C9_error_path_issues_index_request :
    ∀ cfg available http e,
      (run_indexing cfg available http).result = Except.error e →
        (run_indexing cfg available http).requests
          = [create_search_index_request cfg] := by
  intro cfg available http e h
  rcases hres : (get_target_containers cfg.blobContainers available).result
    with e2 | containers
  · exact (run_indexing_err cfg available http e2 hres).1
  · have hk := run_indexing_ok cfg available http containers hres
    rw [hk.2] at h
    simp at h

/-- Witness for C9 on the empty allow-list. -/
theorem C9_error_path_issues_index_request_witness :
    (run_indexing (sampleCfg "") ["a"] okResponder).requests
      = [create_search_index_request (sampleCfg "")] :=
  C9_error_path_issues_index_request (sampleCfg "") ["a"] okResponder
    "BLOB_CONTAINERS env var is not set." (by rfl)

/-- C10: the intersection has list semantics: each configured occurrence
is stripped and kept per occurrence when available, so allow-list
`"a, a ,b"` against containers `["a", "x"]` resolves to `["a", "a"]` and
the run issues one data-source and one indexer request per occurrence. -/
theorem C10_duplicates_and_stripping :
    (∀ cfg available res,
      (get_target_containers cfg available).result = Except.ok res →
        res = ((splitOnComma cfg).map pyStrip).filter
          (fun c => available.contains c)
        ∧ ∀ c, res.count c
            = if available.contains c
              then ((splitOnComma cfg).map pyStrip).count c else 0)
    ∧ (get_target_containers "a, a ,b" ["a", "x"]).result
        = Except.ok ["a", "a"]
    ∧ (run_indexing (sampleCfg "a, a ,b") ["a", "x"] okResponder).requests
        = [create_search_index_request (sampleCfg "a, a ,b"),
            create_data_source_request (sampleCfg "a, a ,b") "a",
            create_indexer_request (sampleCfg "a, a ,b") "a",
            create_data_source_request (sampleCfg "a, a ,b") "a",
            create_indexer_request (sampleCfg "a, a ,b") "a"] := by
  refine ⟨?_, by rfl, by rfl⟩
  intro cfg available res h
  have h2 := (resolver_ok_iff cfg available res).mp h
  have he : res = ((splitOnComma cfg).map pyStrip).filter
      (fun c => available.contains c) := by
    rw [h2.2.1, resolvedList_eq]
  refine ⟨he, ?_⟩
  intro c
  rw [he, count_of_filter]

/-- Witness for C10 at the duplicated, whitespace-padded allow-list. -/
theorem C10_duplicates_and_stripping_witness :
    (["a", "a"] : List String).count "a"
      = if (["a", "x"] : List String).contains "a"
        then ((splitOnComma "a, a ,b").map pyStrip).count "a" else 0 :=
  ((C10_duplicates_and_stripping.1 "a, a ,b" ["a", "x"] ["a", "a"]
    (by rfl)).2) "a"

